import Mathlib

/-!
Shallow embedding of the clinicontact frontend call-session logic.

The embedded code comes from three source files:
* the `AudioConnection` / `CallPhoneNumber` / `PrimaryPage` components
  (peer-to-peer session controller, phone-mode controller, phone validator),
* the `AgentConfiguration` component (`handleSaveVersion`),
* `CallDisplay.tsx` (`runMetadataStream`), and the API-call helpers
  (`storeSession`, `outboundCall`, ...).

JavaScript strings are embedded as `String` (or `List Char` where the
claim needs a character-level characterization), parsed JSON event
records as structures carrying the fields the code inspects, and the
asynchronous callbacks as pure state-transition functions.  Outcomes of
network and device suspension points (credential fetch, microphone
acquisition, streamed payloads) are parameters of the corresponding
functions; user-visible toasts and backend `storeSession` calls are
returned explicitly as effect lists.
-/

namespace Clinicontact

/-- A parsed data-channel event (`JSON.parse(e.data)`).  The message
listener inspects the `type` and `name` fields; `payload` stands for the
remaining JSON content, letting distinct events be distinguished. -/
structure SessionEvent where
  type : String
  name : String
  payload : String
  deriving DecidableEq, Repr

/-- Response of `createSession` (`/api/v1/browser/create-session`). -/
structure TokenResponse where
  id : String
  value : String
  expires_at : Nat
  deriving DecidableEq, Repr

/-- One invocation of `storeSession` (`/api/v1/browser/store-session`),
with the body fields the client sends. -/
structure StoreCall where
  session_id : String
  data : List SessionEvent
  original_user_info : List (String × String)
  deriving DecidableEq, Repr

/-- The mutable state of the `AudioConnection` component: the React
state hooks `isSessionActive`, `settingUpSession`, `dataChannel` and the
refs `sessionData`, `sessionId`, `peerConnection`.  The data channel is
tracked as `none` (no channel), `some false` (created, not yet open) or
`some true` (open). -/
structure ConnState where
  isSessionActive : Bool
  settingUpSession : Bool
  dataChannel : Option Bool
  sessionData : List SessionEvent
  sessionId : Option String
  peerConnection : Bool
  deriving DecidableEq, Repr

/-- The component's initial state: nothing active, no handles, empty log. -/
def initialConnState : ConnState :=
  { isSessionActive := false
    settingUpSession := false
    dataChannel := none
    sessionData := []
    sessionId := none
    peerConnection := false }

/-- Result of one `startSession()` invocation.  `threw` records that the
async function rejected (there is no try/catch around `getUserMedia`);
`localPcCreated` / `localPcStored` track the locally constructed
`RTCPeerConnection` and whether it reached `peerConnection.current`. -/
structure StartResult where
  state : ConnState
  toasts : List String
  threw : Bool
  localPcCreated : Bool
  localPcStored : Bool
  deriving DecidableEq, Repr

/-- `startSession()` of `AudioConnection`, with the outcomes of its two
failure-relevant suspension points as parameters: `token` is the
`createSession` result (`none` on failure) and `mediaOk` tells whether
`navigator.mediaDevices.getUserMedia` resolved.  The SDP exchange with
the realtime endpoint is modelled as succeeding; its steps do not touch
the state fields below except for the final
`peerConnection.current = pc` assignment. -/
def startSession (token : Option TokenResponse) (mediaOk : Bool)
    (st : ConnState) : StartResult :=
  let st1 := { st with settingUpSession := true }
  match token with
  | none =>
      { state := { st1 with settingUpSession := false }
        toasts := ["Failed to start call, please try again"]
        threw := false
        localPcCreated := false
        localPcStored := false }
  | some tok =>
      let st2 := { st1 with sessionId := some tok.id }
      if mediaOk then
        { state := { st2 with dataChannel := some false, peerConnection := true }
          toasts := []
          threw := false
          localPcCreated := true
          localPcStored := true }
      else
        { state := st2
          toasts := []
          threw := true
          localPcCreated := true
          localPcStored := false }

/-- The synchronous part of `stopSession(timeout)`: flip the visible
state to inactive and schedule the teardown callback after `timeout`
milliseconds.  The returned number is the scheduled delay; firing the
timer runs `runTeardown`. -/
def stopSession (timeout : Nat) (st : ConnState) : ConnState × Nat :=
  ({ st with isSessionActive := false }, timeout)

/-- State clearing done at the end of the teardown callback
(`setDataChannel(null)`, `peerConnection.current = null`,
`sessionId.current = null`, `sessionData.current = []`). -/
def clearTeardownState (st : ConnState) : ConnState :=
  { st with dataChannel := none, peerConnection := false
            sessionId := none, sessionData := [] }

/-- The `storeSession` calls the teardown callback issues, guarded by
`if (sessionId.current && sessionData.current.length > 0)`. -/
def teardownStores (userInfo : List (String × String)) (st : ConnState) :
    List StoreCall :=
  match st.sessionId with
  | some sid =>
      if st.sessionData.length > 0 then
        [{ session_id := sid, data := st.sessionData
           original_user_info := userInfo }]
      else []
  | none => []

/-- The whole teardown callback of `stopSession`, run atomically: close
the data channel and peer connection, persist the event log when the
guard holds, and clear all session state. -/
def runTeardown (userInfo : List (String × String)) (st : ConnState) :
    ConnState × List StoreCall :=
  (clearTeardownState st, teardownStores userInfo st)

/-- The hang-up test of the message listener:
`event.type === "response.function_call_arguments.done" && event.name === "hang_up"`. -/
def isHangUpEvent (e : SessionEvent) : Bool :=
  e.type == "response.function_call_arguments.done" && e.name == "hang_up"

/-- The data-channel `message` listener: push the parsed event onto
`sessionData`, then, when it is the hang-up function-call completion,
call `stopSession(10000)`.  The second component is the delay of the
teardown scheduled by that call, if any. -/
def handleDataChannelMessage (e : SessionEvent) (st : ConnState) :
    ConnState × Option Nat :=
  let st1 := { st with sessionData := st.sessionData ++ [e] }
  if isHangUpEvent e then
    let r := stopSession 10000 st1
    (r.1, some r.2)
  else
    (st1, none)

/-- Repeated delivery of data-channel messages in arrival order. -/
def processMessages (evs : List SessionEvent) (st : ConnState) : ConnState :=
  evs.foldl (fun s e => (handleDataChannelMessage e s).1) st

/-! ### Phone-number validation

`validatePhoneNumber` of the `CallPhoneNumber` component:
`phoneNumber.startsWith("+") && phoneNumber.slice(1).match(/^\d+$/) !== null`.
The JavaScript string is embedded at the character level so that the
regular expression `/^\d+$/` can be characterized exactly: it matches a
string iff the string is non-empty and all of its characters are ASCII
digits. -/

/-- `t.match(/^\d+$/) !== null` for the character list `t`. -/
def matchesDigitsRegex (t : List Char) : Bool :=
  !t.isEmpty && t.all Char.isDigit

/-- `validatePhoneNumber` from the `CallPhoneNumber` component. -/
def validatePhoneNumber (s : List Char) : Bool :=
  ['+'].isPrefixOf s && matchesDigitsRegex (s.drop 1)

/-! ### Interleaved teardowns

The teardown callback contains one suspension point: the
`await storeSession(...)` inside the guard.  When two stop timers are
pending, the event loop can run the second callback while the first is
suspended at that await.  `TaskPhase` tracks how far each pending
callback has progressed, and `schedStep` executes one scheduling choice:
`fire i` runs callback `i` from its start up to (and including) issuing
its `storeSession` call or, when the guard fails, to completion;
`resolve i` resumes callback `i` after its await and performs the state
clearing. -/

inductive TaskPhase where
  | waiting
  | midStore
  | done
  deriving DecidableEq, Repr

/-- Configuration of the component state together with the pending
teardown callbacks and the `storeSession` calls issued so far. -/
structure TeardownTasks where
  conn : ConnState
  tasks : List TaskPhase
  stores : List StoreCall
  deriving DecidableEq, Repr

inductive SchedChoice where
  | fire (i : Nat)
  | resolve (i : Nat)
  deriving DecidableEq, Repr

/-- One event-loop scheduling step over the pending teardown callbacks. -/
def schedStep (userInfo : List (String × String)) (s : TeardownTasks) :
    SchedChoice → TeardownTasks
  | .fire i =>
      match s.tasks.get? i with
      | some TaskPhase.waiting =>
          match s.conn.sessionId with
          | some sid =>
              if s.conn.sessionData.length > 0 then
                { s with
                    stores := s.stores ++
                      [{ session_id := sid, data := s.conn.sessionData
                         original_user_info := userInfo }]
                    tasks := s.tasks.set i TaskPhase.midStore }
              else
                { s with conn := clearTeardownState s.conn
                         tasks := s.tasks.set i TaskPhase.done }
          | none =>
              { s with conn := clearTeardownState s.conn
                       tasks := s.tasks.set i TaskPhase.done }
      | _ => s
  | .resolve i =>
      match s.tasks.get? i with
      | some TaskPhase.midStore =>
          { s with conn := clearTeardownState s.conn
                   tasks := s.tasks.set i TaskPhase.done }
      | _ => s

/-- Run a whole schedule of event-loop choices. -/
def runSched (userInfo : List (String × String)) (s : TeardownTasks)
    (choices : List SchedChoice) : TeardownTasks :=
  choices.foldl (schedStep userInfo) s

/-- `n` teardown callbacks executed sequentially — each one runs to
completion (its `storeSession` included) before the next begins. -/
def runTeardownTimes : Nat → List (String × String) → ConnState →
    ConnState × List StoreCall
  | 0, _, st => (st, [])
  | Nat.succ n, userInfo, st =>
      let r1 := runTeardown userInfo st
      let r2 := runTeardownTimes n userInfo r1.1
      (r2.1, r1.2 ++ r2.2)

/-! ### The UI-level step machine

One labelled transition system over the whole `AudioConnection`
component, combining the button handler (`startSession` / `stopSession`),
the data-channel listeners and the grace-period timers.  Each label
carries the outcome of the network/device suspension points of the step
it models.  Steps whose code path is not enabled in the current state
(button guarded by `isSessionActive`, listeners guarded by the channel's
existence/openness, timers by a pending stop) leave the configuration
unchanged. -/

inductive UiLabel where
  | startNoToken
  | startMediaFail (tok : TokenResponse)
  | startOk (tok : TokenResponse)
  | channelOpen
  | channelMessage (e : SessionEvent)
  | clickStop
  | timerFire
  deriving DecidableEq, Repr

/-- Global configuration: component state, delays of the pending
`stopSession` timers, and the `storeSession` calls issued so far. -/
structure Config where
  conn : ConnState
  pendingStops : List Nat
  stores : List StoreCall
  deriving DecidableEq, Repr

/-- One transition of the `AudioConnection` component. -/
def uiStep (userInfo : List (String × String)) (cfg : Config) :
    UiLabel → Config
  | .startNoToken =>
      if cfg.conn.isSessionActive then cfg
      else { cfg with conn := (startSession none true cfg.conn).state }
  | .startMediaFail tok =>
      if cfg.conn.isSessionActive then cfg
      else { cfg with conn := (startSession (some tok) false cfg.conn).state }
  | .startOk tok =>
      if cfg.conn.isSessionActive then cfg
      else { cfg with conn := (startSession (some tok) true cfg.conn).state }
  | .channelOpen =>
      match cfg.conn.dataChannel with
      | some false =>
          { cfg with conn := { cfg.conn with dataChannel := some true
                                             isSessionActive := true
                                             settingUpSession := false } }
      | _ => cfg
  | .channelMessage e =>
      if cfg.conn.dataChannel == some true then
        let r := handleDataChannelMessage e cfg.conn
        { cfg with conn := r.1, pendingStops := cfg.pendingStops ++ r.2.toList }
      else cfg
  | .clickStop =>
      if cfg.conn.isSessionActive then
        let r := stopSession 0 cfg.conn
        { cfg with conn := r.1, pendingStops := cfg.pendingStops ++ [r.2] }
      else cfg
  | .timerFire =>
      match cfg.pendingStops with
      | [] => cfg
      | _ :: rest =>
          let r := runTeardown userInfo cfg.conn
          { conn := r.1, pendingStops := rest, stores := cfg.stores ++ r.2 }

/-- Run the component from a configuration through a list of labels. -/
def runUi (userInfo : List (String × String)) (cfg : Config)
    (ls : List UiLabel) : Config :=
  ls.foldl (uiStep userInfo) cfg

/-- The component's initial configuration. -/
def initConfig : Config :=
  { conn := initialConnState, pendingStops := [], stores := [] }

/-! ### Phone mode (`PrimaryPage.handleCallPhoneNumber`) -/

inductive Speaker where
  | User
  | Assistant
  deriving DecidableEq, Repr

/-- One payload of the `stream-speaker` endpoint. -/
structure SpeakerPayload where
  timestamp : Nat
  speaker : Speaker
  deriving DecidableEq, Repr

/-- The phone-mode state of `PrimaryPage`: `phoneCallId`, `isPlaying`,
the `speakerIntervals` ref, and the audio element's `src`. -/
structure PhonePageState where
  phoneCallId : Option String
  isPlaying : Bool
  speakerIntervals : List SpeakerPayload
  audioSrc : Option String
  deriving DecidableEq, Repr

/-- How the speaker stream terminated: the source ended naturally or the
iteration threw. -/
inductive StreamTermination where
  | ended
  | threw
  deriving DecidableEq, Repr

/-- Result of one `handleCallPhoneNumber` invocation.  `midStreamState`
is the state reached after the call was placed and every streamed
payload was consumed, just before the reset that follows the stream's
termination; `errorPropagated` records whether a stream error escaped
to the caller (the `catch` swallows it). -/
structure PhoneCallResult where
  state : PhonePageState
  toasts : List String
  midStreamState : PhonePageState
  errorPropagated : Bool
  deriving DecidableEq, Repr

/-- The `for await` loop body: push each streamed payload onto
`speakerIntervals`. -/
def consumeSpeakerStream (payloads : List SpeakerPayload)
    (st : PhonePageState) : PhonePageState :=
  payloads.foldl
    (fun s p => { s with speakerIntervals := s.speakerIntervals ++ [p] }) st

/-- `handleCallPhoneNumber` of `PrimaryPage`.  `response` is the
`outboundCall` result (`none` on failure), `payloads` are the payloads
the speaker stream yields before it terminates, and `t` is how it
terminates. -/
def handleCallPhoneNumber (response : Option String)
    (payloads : List SpeakerPayload) (t : StreamTermination)
    (st : PhonePageState) : PhoneCallResult :=
  match response with
  | none =>
      { state := st
        toasts := ["Failed to start call, please try again"]
        midStreamState := st
        errorPropagated := false }
  | some callId =>
      let started :=
        { st with phoneCallId := some callId
                  isPlaying := true
                  audioSrc := some ("/api/v1/phone/stream-audio/" ++ callId) }
      let consumed := consumeSpeakerStream payloads started
      -- on `.threw` the exception is caught and logged; both
      -- terminations fall through to the same reset
      let final :=
        match t with
        | .ended =>
            { consumed with isPlaying := false, phoneCallId := none
                            speakerIntervals := [] }
        | .threw =>
            { consumed with isPlaying := false, phoneCallId := none
                            speakerIntervals := [] }
      { state := final
        toasts := []
        midStreamState := consumed
        errorPropagated := false }

/-! ### Agent versions (`AgentConfiguration.handleSaveVersion`) -/

structure DocumentMetadata where
  id : String
  name : String
  deriving DecidableEq, Repr

/-- An agent version record (`Agent` of `@/types`), with the fields the
configuration component reads. -/
structure Agent where
  id : String
  base_id : String
  name : String
  system_message : String
  active : Bool
  created_at : String
  document_metadata : List DocumentMetadata
  deriving DecidableEq, Repr

/-- The collection update `handleSaveVersion` performs on success:
`[response, ...prev.map((agent) => ({ ...agent, active: false }))]`. -/
def saveVersionAgents (response : Agent) (prev : List Agent) : List Agent :=
  response :: prev.map (fun agent => { agent with active := false })

/-- The versions of one base marked active, inside a collection. -/
def activeVersionsForBase (agents : List Agent) (base : String) : List Agent :=
  agents.filter (fun a => a.base_id == base && a.active)

/-! ### Live metadata stream (`LiveCallDisplay.runMetadataStream`) -/

/-- A speaker segment as displayed by the live call view, modelled from
the specification's data model (speaker label, start timestamp,
optional end timestamp); `runMetadataStream` treats the segment lists it
receives as opaque data. -/
structure SpeakerSegment where
  speaker : Speaker
  start_time : Nat
  end_time : Option Nat
  deriving DecidableEq, Repr

/-- One payload of the `stream-metadata` endpoint (`{type, data}`). -/
structure MetadataPayload where
  type : String
  data : List SpeakerSegment
  deriving DecidableEq, Repr

/-- The state `runMetadataStream` updates. -/
structure LiveCallState where
  speakerSegments : List SpeakerSegment
  callEnded : Bool
  deriving DecidableEq, Repr

/-- `runMetadataStream` of `LiveCallDisplay`: for each streamed payload,
a `"call_end"` payload sets `callEnded` and breaks out of the loop; any
other payload replaces `speakerSegments` with the payload's `data`. -/
def runMetadataStream (payloads : List MetadataPayload)
    (st : LiveCallState) : LiveCallState :=
  match payloads with
  | [] => st
  | p :: rest =>
      if p.type == "call_end" then { st with callEnded := true }
      else runMetadataStream rest { st with speakerSegments := p.data }

/-! ### Concrete fixtures used by counterexamples and witnesses -/

/-- A transcript-delta event, standing for an arbitrary non-hang-up
server event. -/
def evDelta : SessionEvent :=
  { type := "response.audio_transcript.delta", name := "", payload := "hello" }

/-- A second distinct server event. -/
def evDelta2 : SessionEvent :=
  { type := "response.audio_transcript.delta", name := "", payload := "world" }

/-- The hang-up function-call completion event. -/
def evHangUp : SessionEvent :=
  { type := "response.function_call_arguments.done", name := "hang_up"
    payload := "" }

/-- A credential as returned by `createSession`. -/
def tokEx : TokenResponse :=
  { id := "sess-1", value := "ephemeral-key", expires_at := 1000 }

/-- A component state in the middle of a live session that has logged
one event. -/
def liveConnState : ConnState :=
  { isSessionActive := true
    settingUpSession := false
    dataChannel := some true
    sessionData := [evDelta]
    sessionId := some "sess-1"
    peerConnection := true }

/-- The same mid-session state with the session identifier already
cleared (the state a teardown callback finds after another teardown ran
its clearing phase while events remained). -/
def orphanConnState : ConnState :=
  { liveConnState with sessionId := none }

/-- Two pending teardown callbacks over a live session. -/
def twoPendingTeardowns : TeardownTasks :=
  { conn := liveConnState
    tasks := [TaskPhase.waiting, TaskPhase.waiting]
    stores := [] }

/-- A freshly started session: identifier assigned, channel open, no
events logged yet. -/
def startedConnState : ConnState :=
  { isSessionActive := true
    settingUpSession := false
    dataChannel := some true
    sessionData := []
    sessionId := some "sess-1"
    peerConnection := true }

/-- An active version of a second, unrelated agent base. -/
def agentOtherBase : Agent :=
  { id := "v-b2-1", base_id := "base-2", name := "Other Agent"
    system_message := "You are another agent"
    active := true, created_at := "2025-01-01", document_metadata := [] }

/-- The version record returned by `createNewAgentVersion` for the
first base. -/
def agentNewVersion : Agent :=
  { id := "v-b1-2", base_id := "base-1", name := "Main Agent"
    system_message := "Hi there"
    active := true, created_at := "2025-01-02", document_metadata := [] }

end Clinicontact

namespace Clinicontact

/-- C5: The phone-number validator accepts exactly `'+'` followed by one
or more digits: the general characterization, plus the four concrete
cases named by the specification (`"+15551234567"` accepted,
`"15551234567"`, `"+1555-123-4567"` and `""` rejected). -/
theorem validatePhoneNumber_plus_digits :
    (∀ s : List Char, validatePhoneNumber s = true ↔
        ∃ t : List Char, s = '+' :: t ∧ t ≠ [] ∧ t.all Char.isDigit = true) ∧
    validatePhoneNumber ['+', '1', '5', '5', '5', '1', '2', '3', '4', '5', '6', '7'] = true ∧
    validatePhoneNumber ['1', '5', '5', '5', '1', '2', '3', '4', '5', '6', '7'] = false ∧
    validatePhoneNumber ['+', '1', '5', '5', '5', '-', '1', '2', '3', '-', '4', '5', '6', '7'] = false ∧
    validatePhoneNumber [] = false := by
  refine ⟨?_, by decide, by decide, by decide, by decide⟩
  intro s
  constructor
  · intro h
    cases s with
    | nil => simp [validatePhoneNumber, List.isPrefixOf] at h
    | cons c t =>
        simp only [validatePhoneNumber, List.isPrefixOf, matchesDigitsRegex,
          Bool.and_eq_true, beq_iff_eq, List.drop_succ_cons, List.drop_zero,
          Bool.not_eq_true'] at h
        obtain ⟨⟨hc, -⟩, ht, hd⟩ := h
        refine ⟨t, by rw [hc], ?_, hd⟩
        intro hnil
        subst hnil
        simp [List.isEmpty] at ht
  · rintro ⟨t, rfl, ht, hd⟩
    simp [validatePhoneNumber, List.isPrefixOf, matchesDigitsRegex, ht, hd]

/-! ### Teardown persistence (C2, C9) -/

lemma teardownStores_of_id_none (userInfo : List (String × String))
    (st : ConnState) (h : st.sessionId = none) :
    teardownStores userInfo st = [] := by
  simp [teardownStores, h]

lemma teardownStores_length_le_one (userInfo : List (String × String))
    (st : ConnState) : (teardownStores userInfo st).length ≤ 1 := by
  unfold teardownStores
  split
  · split <;> simp
  · simp

lemma clearTeardownState_sessionId (st : ConnState) :
    (clearTeardownState st).sessionId = none := rfl

lemma runTeardownTimes_of_id_none (n : Nat)
    (userInfo : List (String × String)) (st : ConnState)
    (h : st.sessionId = none) :
    (runTeardownTimes n userInfo st).2 = [] := by
  induction n generalizing st with
  | zero => rfl
  | succ n ih =>
      simp only [runTeardownTimes, runTeardown]
      rw [teardownStores_of_id_none userInfo st h,
        ih (clearTeardownState st) (clearTeardownState_sessionId st)]
      rfl

/-- C2 (counterexample): a teardown that runs when the session
identifier has already been cleared makes no `storeSession` call even
though the event log is non-empty, contradicting "a non-empty event log
leads to exactly one storeSession call". -/
theorem teardown_nonempty_log_without_id_no_store_cex :
    orphanConnState.sessionData ≠ [] ∧
    (runTeardown [] orphanConnState).2 = [] := by
  constructor
  · simp [orphanConnState, liveConnState]
  · rfl

/-- C2 (amended): the teardown callback attempts persistence if and
only if the session identifier is non-null and the event log is
non-empty at the moment it runs; when both hold it makes exactly one
`storeSession` call carrying the accumulated events, otherwise none. -/
theorem teardown_store_iff_id_and_nonempty
    (userInfo : List (String × String)) (st : ConnState) :
    (st.sessionId = none → (runTeardown userInfo st).2 = []) ∧
    (∀ sid, st.sessionId = some sid →
      (st.sessionData = [] → (runTeardown userInfo st).2 = []) ∧
      (st.sessionData ≠ [] →
        (runTeardown userInfo st).2 =
          [{ session_id := sid, data := st.sessionData
             original_user_info := userInfo }])) := by
  constructor
  · intro h
    simp [runTeardown, teardownStores, h]
  · intro sid h
    constructor
    · intro hd
      simp [runTeardown, teardownStores, h, hd]
    · intro hd
      have hlen : st.sessionData.length > 0 := List.length_pos.mpr hd
      simp [runTeardown, teardownStores, h, hlen]

/-- Witness for `teardown_store_iff_id_and_nonempty` at a live session
state with one logged event. -/
theorem teardown_store_iff_id_and_nonempty_witness :
    liveConnState.sessionId = some "sess-1" ∧
    liveConnState.sessionData ≠ [] ∧
    (runTeardown [] liveConnState).2 =
      [{ session_id := "sess-1", data := [evDelta]
         original_user_info := [] }] := by
  refine ⟨rfl, by simp [liveConnState], ?_⟩
  have h := ((teardown_store_iff_id_and_nonempty [] liveConnState).2 "sess-1"
    rfl).2 (by simp [liveConnState])
  simpa [liveConnState] using h

/-- C9 (counterexample): two pending teardown callbacks that interleave
at the `await storeSession` both pass the persistence guard, so
`storeSession` is called twice for one session, contradicting "at most
once". -/
theorem overlapping_teardowns_store_twice_cex :
    (runSched [] twoPendingTeardowns
        [SchedChoice.fire 0, SchedChoice.fire 1]).stores.length = 2 ∧
    ¬ (runSched [] twoPendingTeardowns
        [SchedChoice.fire 0, SchedChoice.fire 1]).stores.length ≤ 1 := by
  refine ⟨rfl, fun h => ?_⟩
  have h2 : (runSched [] twoPendingTeardowns
      [SchedChoice.fire 0, SchedChoice.fire 1]).stores.length = 2 := rfl
  rw [h2] at h
  exact absurd h (by decide)

/-- C9 (amended): when teardown callbacks run to completion one after
another — none begins while another is suspended at its persistence
await — `storeSession` is called at most once across the whole
sequence; each teardown persists only when the session identifier is
non-null, and every teardown clears the identifier and the event log. -/
theorem sequential_teardowns_store_at_most_once
    (n : Nat) (userInfo : List (String × String)) (st : ConnState) :
    (runTeardownTimes n userInfo st).2.length ≤ 1 ∧
    (runTeardown userInfo st).1.sessionId = none ∧
    (runTeardown userInfo st).1.sessionData = [] ∧
    (st.sessionId = none → (runTeardown userInfo st).2 = []) := by
  refine ⟨?_, rfl, rfl, fun h => by simp [runTeardown, teardownStores, h]⟩
  cases n with
  | zero => simp [runTeardownTimes]
  | succ n =>
      simp only [runTeardownTimes, runTeardown]
      rw [runTeardownTimes_of_id_none n userInfo (clearTeardownState st)
        (clearTeardownState_sessionId st)]
      simpa using teardownStores_length_le_one userInfo st

/-- Witness for `sequential_teardowns_store_at_most_once` at a cleared
state, discharging the identifier hypothesis. -/
theorem sequential_teardowns_store_at_most_once_witness :
    (clearTeardownState liveConnState).sessionId = none ∧
    (runTeardown [] (clearTeardownState liveConnState)).2 = [] ∧
    (runTeardownTimes 2 [] liveConnState).2.length ≤ 1 := by
  have h := sequential_teardowns_store_at_most_once 2 []
    (clearTeardownState liveConnState)
  have h2 := sequential_teardowns_store_at_most_once 2 [] liveConnState
  exact ⟨rfl, h.2.2.2 rfl, h2.1⟩

/-! ### startSession error handling (C3) -/

/-- C3 (counterexample): when the credential fetch succeeds but
microphone acquisition fails, `startSession` aborts by an uncaught
rejection: the setup flag stays set, the stored session identifier
lingers, the constructed peer connection is never stored or closed, and
no user-facing notification is produced — contradicting "resets the
controller to the idle state and surfaces exactly one user-facing error
notification". -/
theorem startSession_media_failure_cex :
    (startSession (some tokEx) false initialConnState).state.settingUpSession
        = true ∧
    (startSession (some tokEx) false initialConnState).toasts = [] ∧
    (startSession (some tokEx) false initialConnState).state.sessionId
        = some "sess-1" ∧
    (startSession (some tokEx) false initialConnState).threw = true ∧
    (startSession (some tokEx) false initialConnState).localPcCreated = true ∧
    (startSession (some tokEx) false initialConnState).localPcStored = false :=
  ⟨rfl, rfl, rfl, rfl, rfl, rfl⟩

/-- C3 (amended): a credential failure aborts the attempt, clears the
setup flag, touches no other state, creates no connection handles and
surfaces exactly one error notification; a microphone failure aborts
the attempt with no automatic retry, but leaves the setup flag set and
the session identifier assigned, surfaces no notification, and the
created peer connection escapes unstored while the error propagates as
an unhandled rejection. -/
theorem startSession_failure_behaviour
    (st : ConnState) (tok : TokenResponse) (m : Bool) :
    (startSession none m st).state = { st with settingUpSession := false } ∧
    (startSession none m st).toasts =
      ["Failed to start call, please try again"] ∧
    (startSession none m st).threw = false ∧
    (startSession none m st).localPcCreated = false ∧
    (startSession (some tok) false st).state =
      { st with settingUpSession := true, sessionId := some tok.id } ∧
    (startSession (some tok) false st).toasts = [] ∧
    (startSession (some tok) false st).threw = true ∧
    (startSession (some tok) false st).localPcCreated = true ∧
    (startSession (some tok) false st).localPcStored = false :=
  ⟨rfl, rfl, rfl, rfl, rfl, rfl, rfl, rfl, rfl⟩

/-! ### Hang-up event handling (C4) -/

/-- C4: a data-channel message parsing to a
`response.function_call_arguments.done` event named `hang_up` is first
appended to the event log and then triggers `stopSession` — the same
termination path as the manual stop button — with a grace delay of
exactly 10000 ms before the teardown, and any message delivered while
the teardown is still pending is likewise appended to the log. -/
theorem hangup_event_triggers_graceful_stop
    (st : ConnState) (e : SessionEvent) (h : isHangUpEvent e = true) :
    handleDataChannelMessage e st =
      ((stopSession 10000 { st with sessionData := st.sessionData ++ [e] }).1,
        some (stopSession 10000
          { st with sessionData := st.sessionData ++ [e] }).2) ∧
    (handleDataChannelMessage e st).2 = some 10000 ∧
    (handleDataChannelMessage e st).1 =
      { st with sessionData := st.sessionData ++ [e]
                isSessionActive := false } ∧
    (∀ (e2 : SessionEvent) (st2 : ConnState),
      (handleDataChannelMessage e2 st2).1.sessionData
        = st2.sessionData ++ [e2]) := by
  refine ⟨?_, ?_, ?_, ?_⟩
  · simp [handleDataChannelMessage, h, stopSession]
  · simp [handleDataChannelMessage, h, stopSession]
  · simp [handleDataChannelMessage, h, stopSession]
  · intro e2 st2
    by_cases h2 : isHangUpEvent e2 = true <;>
      simp [handleDataChannelMessage, stopSession, h2]

/-- Witness for `hangup_event_triggers_graceful_stop` at the concrete
hang-up event during a live session. -/
theorem hangup_event_triggers_graceful_stop_witness :
    isHangUpEvent evHangUp = true ∧
    (handleDataChannelMessage evHangUp liveConnState).2 = some 10000 := by
  refine ⟨by decide, ?_⟩
  exact (hangup_event_triggers_graceful_stop liveConnState evHangUp
    (by decide)).2.1

/-! ### Event-log ordering (C6) -/

lemma handleDataChannelMessage_sessionData (e : SessionEvent)
    (st : ConnState) :
    (handleDataChannelMessage e st).1.sessionData = st.sessionData ++ [e] := by
  by_cases h : isHangUpEvent e = true <;>
    simp [handleDataChannelMessage, stopSession, h]

lemma handleDataChannelMessage_sessionId (e : SessionEvent)
    (st : ConnState) :
    (handleDataChannelMessage e st).1.sessionId = st.sessionId := by
  by_cases h : isHangUpEvent e = true <;>
    simp [handleDataChannelMessage, stopSession, h]

lemma processMessages_sessionData (evs : List SessionEvent)
    (st : ConnState) :
    (processMessages evs st).sessionData = st.sessionData ++ evs := by
  induction evs generalizing st with
  | nil => simp [processMessages]
  | cons e evs ih =>
      simp only [processMessages, List.foldl_cons] at *
      rw [ih, handleDataChannelMessage_sessionData]
      simp

lemma processMessages_sessionId (evs : List SessionEvent)
    (st : ConnState) :
    (processMessages evs st).sessionId = st.sessionId := by
  induction evs generalizing st with
  | nil => simp [processMessages]
  | cons e evs ih =>
      simp only [processMessages, List.foldl_cons] at *
      rw [ih, handleDataChannelMessage_sessionId]

/-- C6: data-channel messages are appended to the session event log in
strict arrival order — the log after any delivery sequence is the prior
log extended by exactly that sequence, with nothing deduplicated,
reordered, batched or dropped — and the teardown of a session whose log
accumulated exactly those events persists exactly that sequence. -/
theorem event_log_preserves_arrival_order :
    (∀ (st : ConnState) (evs : List SessionEvent),
        (processMessages evs st).sessionData = st.sessionData ++ evs) ∧
    (∀ (userInfo : List (String × String)) (sid : String)
        (evs : List SessionEvent) (st : ConnState),
        st.sessionId = some sid → st.sessionData = [] → evs ≠ [] →
        (runTeardown userInfo (processMessages evs st)).2 =
          [{ session_id := sid, data := evs
             original_user_info := userInfo }]) := by
  refine ⟨fun st evs => processMessages_sessionData evs st, ?_⟩
  intro userInfo sid evs st hid hdata hne
  have hd : (processMessages evs st).sessionData = evs := by
    rw [processMessages_sessionData, hdata]
    simp
  have hi : (processMessages evs st).sessionId = some sid := by
    rw [processMessages_sessionId, hid]
  have hlen : 0 < (processMessages evs st).sessionData.length := by
    rw [hd]
    exact List.length_pos.mpr hne
  simp [runTeardown, teardownStores, hi, hlen, hd, hne]

/-- Witness for `event_log_preserves_arrival_order`: two events arrive
on a fresh session and are persisted in arrival order. -/
theorem event_log_preserves_arrival_order_witness :
    startedConnState.sessionId = some "sess-1" ∧
    startedConnState.sessionData = [] ∧
    ([evDelta, evDelta2] : List SessionEvent) ≠ [] ∧
    (runTeardown [] (processMessages [evDelta, evDelta2] startedConnState)).2 =
      [{ session_id := "sess-1", data := [evDelta, evDelta2]
         original_user_info := [] }] := by
  refine ⟨rfl, rfl, by simp, ?_⟩
  exact event_log_preserves_arrival_order.2 [] "sess-1" [evDelta, evDelta2]
    startedConnState rfl rfl (by simp)

/-! ### Activation only via the channel open event (C7) -/

lemma uiStep_active_of_non_open (userInfo : List (String × String))
    (cfg : Config) (l : UiLabel) (hl : l ≠ UiLabel.channelOpen)
    (h : (uiStep userInfo cfg l).conn.isSessionActive = true) :
    cfg.conn.isSessionActive = true := by
  cases l with
  | startNoToken =>
      simp only [uiStep] at h
      split at h
      · exact h
      · simpa [startSession] using h
  | startMediaFail tok =>
      simp only [uiStep] at h
      split at h
      · exact h
      · simpa [startSession] using h
  | startOk tok =>
      simp only [uiStep] at h
      split at h
      · exact h
      · simpa [startSession] using h
  | channelOpen => exact absurd rfl hl
  | channelMessage e =>
      simp only [uiStep] at h
      split at h
      · by_cases h2 : isHangUpEvent e = true
        · simp [handleDataChannelMessage, stopSession, h2] at h
        · simp [handleDataChannelMessage, stopSession, h2] at h
          exact h
      · exact h
  | clickStop =>
      simp only [uiStep] at h
      split at h
      · assumption
      · exact h
  | timerFire =>
      simp only [uiStep] at h
      split at h
      · exact h
      · simpa [runTeardown, clearTeardownState] using h

lemma runUi_active_of_trace (userInfo : List (String × String))
    (ls : List UiLabel) :
    ∀ cfg : Config, (runUi userInfo cfg ls).conn.isSessionActive = true →
      UiLabel.channelOpen ∈ ls ∨ cfg.conn.isSessionActive = true := by
  induction ls with
  | nil =>
      intro cfg h
      exact Or.inr h
  | cons l ls ih =>
      intro cfg h
      rcases ih (uiStep userInfo cfg l)
          (by simpa [runUi, List.foldl_cons] using h) with h1 | h2
      · exact Or.inl (List.mem_cons_of_mem _ h1)
      · by_cases hl : l = UiLabel.channelOpen
        · exact Or.inl (hl ▸ List.mem_cons_self _ _)
        · exact Or.inr (uiStep_active_of_non_open userInfo cfg l hl h2)

/-- C7: no transition of the `AudioConnection` component other than the
data channel's `open` event can make the session active, and in any
execution from the initial configuration the session is active only if
the channel reported `open` somewhere in the trace. -/
theorem active_only_after_channel_open
    (userInfo : List (String × String)) :
    (∀ (cfg : Config) (l : UiLabel), l ≠ UiLabel.channelOpen →
        (uiStep userInfo cfg l).conn.isSessionActive = true →
        cfg.conn.isSessionActive = true) ∧
    (∀ ls : List UiLabel,
        (runUi userInfo initConfig ls).conn.isSessionActive = true →
        UiLabel.channelOpen ∈ ls) := by
  refine ⟨fun cfg l hl h => uiStep_active_of_non_open userInfo cfg l hl h, ?_⟩
  intro ls h
  rcases runUi_active_of_trace userInfo ls initConfig h with h1 | h2
  · exact h1
  · exact absurd h2 (by simp [initConfig, initialConnState])

/-- Witness for `active_only_after_channel_open` on the trace that
starts a session and opens the channel. -/
theorem active_only_after_channel_open_witness :
    (runUi [] initConfig
        [UiLabel.startOk tokEx, UiLabel.channelOpen]).conn.isSessionActive
      = true ∧
    UiLabel.channelOpen ∈ [UiLabel.startOk tokEx, UiLabel.channelOpen] := by
  have hrun : (runUi [] initConfig
      [UiLabel.startOk tokEx, UiLabel.channelOpen]).conn.isSessionActive
        = true := rfl
  exact ⟨hrun, (active_only_after_channel_open []).2 _ hrun⟩

/-! ### Phone mode reset (C8) -/

lemma consumeSpeakerStream_speakerIntervals (payloads : List SpeakerPayload)
    (st : PhonePageState) :
    (consumeSpeakerStream payloads st).speakerIntervals =
      st.speakerIntervals ++ payloads := by
  induction payloads generalizing st with
  | nil => simp [consumeSpeakerStream]
  | cons p ps ih =>
      simp only [consumeSpeakerStream, List.foldl_cons] at *
      rw [ih]
      simp

lemma consumeSpeakerStream_audioSrc (payloads : List SpeakerPayload)
    (st : PhonePageState) :
    (consumeSpeakerStream payloads st).audioSrc = st.audioSrc := by
  induction payloads generalizing st with
  | nil => simp [consumeSpeakerStream]
  | cons p ps ih =>
      simp only [consumeSpeakerStream, List.foldl_cons] at *
      rw [ih]

/-- C8: after an outbound call is placed, every streamed speaker payload
is consumed into the buffer and the audio source points at the
streaming endpoint for the returned call id; whether the stream ends
naturally or throws, the controller then resets to idle — playing flag
cleared, call id null, buffer emptied — without propagating a stream
error to the caller. -/
theorem phone_call_stream_end_resets_idle
    (callId : String) (payloads : List SpeakerPayload)
    (t : StreamTermination) (st : PhonePageState) :
    (handleCallPhoneNumber (some callId) payloads t st).state.isPlaying
        = false ∧
    (handleCallPhoneNumber (some callId) payloads t st).state.phoneCallId
        = none ∧
    (handleCallPhoneNumber (some callId) payloads t st).state.speakerIntervals
        = [] ∧
    (handleCallPhoneNumber (some callId) payloads t st).errorPropagated
        = false ∧
    (handleCallPhoneNumber (some callId) payloads t st).toasts = [] ∧
    (handleCallPhoneNumber (some callId) payloads
        t st).midStreamState.speakerIntervals
        = st.speakerIntervals ++ payloads ∧
    (handleCallPhoneNumber (some callId) payloads
        t st).midStreamState.audioSrc
        = some ("/api/v1/phone/stream-audio/" ++ callId) := by
  cases t <;>
    exact ⟨rfl, rfl, rfl, rfl, rfl,
      by simp [handleCallPhoneNumber, consumeSpeakerStream_speakerIntervals],
      by simp [handleCallPhoneNumber, consumeSpeakerStream_audioSrc]⟩

/-! ### Agent version save (C1) -/

/-- C1 (counterexample): saving a new version of one base marks the
active versions of every other base inactive as well — after the save,
base `base-2` retains zero active versions instead of exactly one. -/
theorem saveVersion_other_base_loses_active_cex :
    (activeVersionsForBase [agentOtherBase] "base-2").length = 1 ∧
    (activeVersionsForBase
        (saveVersionAgents agentNewVersion [agentOtherBase])
        "base-2").length = 0 := by
  exact ⟨by decide, by decide⟩

lemma filter_active_map_deactivate (l : List Agent) :
    (l.map (fun agent => { agent with active := false })).filter
      (fun a => a.active) = [] := by
  induction l with
  | nil => rfl
  | cons a l ih =>
      simp [List.filter_cons, ih]

/-- C1 (amended): after a successful save, the returned version is
prepended and every previously listed version — of every base
identifier — is marked inactive, so when the returned record is active
it is the unique active version in the whole collection; bases other
than the saved one are left with no active version. -/
theorem saveVersion_unique_active_whole_collection
    (response : Agent) (prev : List Agent) :
    (saveVersionAgents response prev).filter (fun a => a.active) =
      (if response.active = true then [response] else []) := by
  simp only [saveVersionAgents, List.filter_cons,
    filter_active_map_deactivate]

/-! ### Live metadata stream (C10) -/

/-- C10: `runMetadataStream` folds the payload sequence up to (and
excluding) the first `call_end` payload by replacing the whole segment
list with each payload's data — last write wins, nothing is appended —
and sets the call-ended flag exactly when a `call_end` payload arrives,
ignoring everything after it and leaving the segment list as the last
value written before it. -/
theorem runMetadataStream_last_write_wins
    (payloads : List MetadataPayload) (st : LiveCallState) :
    runMetadataStream payloads st =
      { speakerSegments :=
          (payloads.takeWhile (fun p => !(p.type == "call_end"))).foldl
            (fun _ p => p.data) st.speakerSegments
        callEnded :=
          st.callEnded || payloads.any (fun p => p.type == "call_end") } := by
  induction payloads generalizing st with
  | nil => simp [runMetadataStream]
  | cons p rest ih =>
      by_cases h : p.type == "call_end"
      · simp [runMetadataStream, h, List.takeWhile_cons, List.any_cons]
      · simp [runMetadataStream, h, List.takeWhile_cons, List.any_cons, ih]

end Clinicontact
